import Mathlib

/-!
Verification of the aeroponic absorption model
(`src/aeroponic_simulator.py`, function `simulate_aeroponic_absorption`).

The Python function is a pure arithmetic computation over IEEE doubles.
We embed it shallowly over `ℚ` (exact rational arithmetic, the usual
idealisation of real-valued code); `np.pi` is embedded as the exact
rational value of the IEEE-754 double `np.pi`.  The `raise ValueError`
on an out-of-range droplet size is embedded as `Option`: the function
returns `none` exactly when the Python function raises, and `some`
of the result record otherwise.  Every intermediate quantity of the
source is a named definition so claims about intermediates can be
stated directly; `simulate_aeroponic_absorption` assembles them exactly
as the source does.
-/

namespace Aeroponic

/-- The seven input parameters of `simulate_aeroponic_absorption`
(the `plot_results` flag only triggers the out-of-scope plotting side
effect and does not affect the returned record, so it is omitted). -/
structure Inputs where
  droplet_size : ℚ
  nutrient_concentration : ℚ
  root_diameter : ℚ
  airflow_velocity : ℚ
  temperature : ℚ
  exposure_time : ℚ
  root_density : ℚ
deriving Repr, DecidableEq

/-- The nested `parameters` mapping of the result dictionary
(source lines 70-78): its seven fixed keys. -/
structure Parameters where
  stokes_number : ℚ
  reynolds_number : ℚ
  interception_efficiency : ℚ
  impaction_efficiency : ℚ
  sedimentation_efficiency : ℚ
  film_formation_factor : ℚ
  concentration_factor : ℚ
deriving Repr, DecidableEq

/-- The result dictionary returned by the source (lines 66-79). -/
structure Result where
  absorption_rate : ℚ
  efficiency : ℚ
  total_nutrients_absorbed : ℚ
  parameters : Parameters
deriving Repr, DecidableEq

/-- Inputs with the source's default keyword values
`root_diameter=0.5, airflow_velocity=0.1, temperature=25,
exposure_time=60, root_density=1000`. -/
def defaultInputs (droplet_size nutrient_concentration : ℚ) : Inputs :=
  ⟨droplet_size, nutrient_concentration, 0.5, 0.1, 25, 60, 1000⟩

/-- Replace only the `nutrient_concentration` field. -/
def withConcentration (i : Inputs) (c : ℚ) : Inputs :=
  ⟨i.droplet_size, c, i.root_diameter, i.airflow_velocity, i.temperature,
   i.exposure_time, i.root_density⟩

/-- `np.pi` as the exact rational value of the IEEE-754 double
(3.14159265358979311599...). -/
def np_pi : ℚ := 884279719003555 / 281474976710656

/-- Source line 12: `air_viscosity = 1.8e-5 * (1 + 0.00284 * (temperature - 20))`. -/
def air_viscosity (temperature : ℚ) : ℚ := 1.8e-5 * (1 + 0.00284 * (temperature - 20))

/-- Source line 13. -/
def water_density : ℚ := 998.0

/-- Source line 14. -/
def gravity : ℚ := 9.81

/-- Source line 16: `droplet_size_m = droplet_size * 1e-6`. -/
def droplet_size_m (droplet_size : ℚ) : ℚ := droplet_size * 1e-6

/-- Source line 17: `root_diameter_m = root_diameter * 1e-3`. -/
def root_diameter_m (root_diameter : ℚ) : ℚ := root_diameter * 1e-3

/-- Source line 19. -/
def stokes_number (i : Inputs) : ℚ :=
  (water_density * (droplet_size_m i.droplet_size) ^ 2 * i.airflow_velocity) /
    (18 * air_viscosity i.temperature * root_diameter_m i.root_diameter)

/-- Source line 20. -/
def reynolds_number (i : Inputs) : ℚ :=
  (water_density * i.airflow_velocity * root_diameter_m i.root_diameter) /
    air_viscosity i.temperature

/-- Source line 21. -/
def settling_velocity (i : Inputs) : ℚ :=
  (water_density * (droplet_size_m i.droplet_size) ^ 2 * gravity) /
    (18 * air_viscosity i.temperature)

/-- Source line 22 (computed but not consumed by the outputs). -/
def impact_time (i : Inputs) : ℚ := root_diameter_m i.root_diameter / i.airflow_velocity

/-- Source line 24. -/
def interception_param (i : Inputs) : ℚ :=
  droplet_size_m i.droplet_size / root_diameter_m i.root_diameter

/-- Source line 25. -/
def interception_efficiency (i : Inputs) : ℚ :=
  0.6 * (interception_param i) ^ 2 / (1 + interception_param i)

/-- Source lines 27-30, as a function of the Stokes number alone:
`stokes**2 / (stokes**2 + 0.25)` above the `0.1` threshold, else `0`. -/
def impaction_of_stokes (s : ℚ) : ℚ :=
  if 0.1 < s then s ^ 2 / (s ^ 2 + 0.25) else 0

/-- Source lines 27-30. -/
def impaction_efficiency (i : Inputs) : ℚ := impaction_of_stokes (stokes_number i)

/-- Source lines 32-33: `sedimentation_efficiency = settling_velocity / airflow_velocity`. -/
def sedimentation_efficiency (i : Inputs) : ℚ :=
  settling_velocity i / i.airflow_velocity

/-- Source lines 35-38. -/
def bounce_factor (i : Inputs) : ℚ :=
  if i.droplet_size < 30 then 1 - 0.01 * (30 - i.droplet_size) else 1.0

/-- Source lines 40-42. -/
def single_fiber_efficiency (i : Inputs) : ℚ :=
  (interception_efficiency i + impaction_efficiency i + sedimentation_efficiency i) *
    bounce_factor i

/-- Source lines 44-47. -/
def concentration_factor (i : Inputs) : ℚ :=
  if 1000 < i.nutrient_concentration then 0.9 else 1.0

/-- Source line 51: `film_saturation_time = 30 + (50 - droplet_size)`. -/
def film_saturation_time (i : Inputs) : ℚ := 30 + (50 - i.droplet_size)

/-- Source lines 49-54. -/
def film_formation_factor (i : Inputs) : ℚ :=
  if 40 < i.droplet_size ∧ 30 < i.exposure_time then
    if film_saturation_time i < i.exposure_time then
      1.0 - 0.3 * ((i.exposure_time - film_saturation_time i) / i.exposure_time)
    else 1.0
  else 1.0

/-- Source line 56. -/
def absorption_efficiency (i : Inputs) : ℚ :=
  single_fiber_efficiency i * concentration_factor i * film_formation_factor i

/-- Source line 57. -/
def root_surface_area (i : Inputs) : ℚ :=
  np_pi * root_diameter_m i.root_diameter * 0.01 * i.root_density

/-- Source line 59. -/
def droplet_volume (i : Inputs) : ℚ :=
  (4 / 3) * np_pi * (droplet_size_m i.droplet_size / 2) ^ 3

/-- Source line 60. -/
def droplet_density : ℚ := 5e8

/-- Source line 61. -/
def water_flow_rate (i : Inputs) : ℚ :=
  i.airflow_velocity * droplet_volume i * droplet_density

/-- Source line 63. -/
def absorption_rate (i : Inputs) : ℚ :=
  water_flow_rate i * absorption_efficiency i * root_surface_area i * 60 * 1e6

/-- Source line 64: `nutrients_absorbed = absorption_rate * nutrient_concentration / 1000`. -/
def nutrients_absorbed (i : Inputs) : ℚ :=
  absorption_rate i * i.nutrient_concentration / 1000

/-- Source lines 5-84: the whole function.  Returns `none` exactly when
the Python function raises (`droplet_size` outside `[20, 50]`, line 9),
otherwise `some` of the result record of lines 66-79. -/
def simulate_aeroponic_absorption (i : Inputs) : Option Result :=
  if 20 ≤ i.droplet_size ∧ i.droplet_size ≤ 50 then
    some ⟨absorption_rate i, absorption_efficiency i, nutrients_absorbed i,
      ⟨stokes_number i, reynolds_number i, interception_efficiency i,
       impaction_efficiency i, sedimentation_efficiency i,
       film_formation_factor i, concentration_factor i⟩⟩
  else none

/-! ## Helper lemmas about the impaction sub-model -/

theorem impaction_of_stokes_nonneg (s : ℚ) : 0 ≤ impaction_of_stokes s := by
  rw [impaction_of_stokes]
  split
  · have h2 : (0 : ℚ) < s ^ 2 + 0.25 := by positivity
    exact div_nonneg (sq_nonneg s) h2.le
  · exact le_refl 0

theorem impaction_of_stokes_lt_one (s : ℚ) : impaction_of_stokes s < 1 := by
  rw [impaction_of_stokes]
  split
  · have h2 : (0 : ℚ) < s ^ 2 + 0.25 := by positivity
    rw [div_lt_one h2]
    linarith
  · norm_num

theorem impaction_of_stokes_strictMono (s t : ℚ) (hs : 0.1 < s) (hst : s < t) :
    impaction_of_stokes s < impaction_of_stokes t := by
  have ht : (0.1 : ℚ) < t := hs.trans hst
  have hs0 : (0 : ℚ) < s := lt_trans (by norm_num) hs
  rw [impaction_of_stokes, impaction_of_stokes, if_pos hs, if_pos ht]
  have h1 : (0 : ℚ) < s ^ 2 + 0.25 := by positivity
  have h2 : (0 : ℚ) < t ^ 2 + 0.25 := by positivity
  rw [div_lt_div_iff₀ h1 h2]
  nlinarith [mul_pos (sub_pos.mpr hst) (show (0 : ℚ) < t + s by linarith)]

theorem impaction_of_stokes_approaches_one (ε : ℚ) (hε : 0 < ε) :
    ∃ S : ℚ, ∀ s : ℚ, S < s → 1 - ε < impaction_of_stokes s := by
  refine ⟨max 1 (1 / ε), fun s hs => ?_⟩
  have hs1 : (1 : ℚ) < s := lt_of_le_of_lt (le_max_left _ _) hs
  have hs2 : 1 / ε < s := lt_of_le_of_lt (le_max_right _ _) hs
  have hs0 : (0 : ℚ) < s := by linarith
  have hεs : 1 < ε * s := by
    rw [div_lt_iff₀ hε] at hs2
    linarith [hs2]
  rw [impaction_of_stokes, if_pos (show (0.1 : ℚ) < s from lt_trans (by norm_num) hs1)]
  have hq : (0 : ℚ) < s ^ 2 + 0.25 := by positivity
  rw [lt_div_iff₀ hq]
  have hεs2 : s < ε * s ^ 2 := by nlinarith [mul_pos (sub_pos.mpr hεs) hs0]
  nlinarith

/-! ## Claims -/

/-- C1: `compute` raises the single error kind InvalidDropletSize (here:
returns `none`) if and only if `droplet_size` is outside `[20, 50]`;
the boundary values 20 and 50 succeed while 19.999 and 50.001 raise;
on the error no partial result is produced (the `none` carries nothing),
and for every `droplet_size` in `[20, 50]` with the default remaining
parameters the computation returns a result. -/
theorem c1_invalid_droplet_size (i : Inputs) :
    (simulate_aeroponic_absorption i = none ↔
      i.droplet_size < 20 ∨ 50 < i.droplet_size) ∧
    (∀ d c : ℚ, 20 ≤ d → d ≤ 50 →
      (simulate_aeroponic_absorption (defaultInputs d c)).isSome = true) ∧
    simulate_aeroponic_absorption (defaultInputs 19.999 500) = none ∧
    (simulate_aeroponic_absorption (defaultInputs 20 500)).isSome = true ∧
    (simulate_aeroponic_absorption (defaultInputs 50 500)).isSome = true ∧
    simulate_aeroponic_absorption (defaultInputs 50.001 500) = none := by
  refine ⟨?_, ?_,
    by norm_num [simulate_aeroponic_absorption, defaultInputs],
    by norm_num [simulate_aeroponic_absorption, defaultInputs],
    by norm_num [simulate_aeroponic_absorption, defaultInputs],
    by norm_num [simulate_aeroponic_absorption, defaultInputs]⟩
  · rw [simulate_aeroponic_absorption]
    split
    · rename_i hv
      constructor
      · intro h
        exact absurd h (Option.some_ne_none _)
      · rintro (h | h)
        · exact absurd hv.1 (not_le.mpr h)
        · exact absurd hv.2 (not_le.mpr h)
    · rename_i hv
      rw [not_and_or, not_le, not_le] at hv
      exact iff_of_true rfl hv
  · intro d c hd1 hd2
    rw [simulate_aeroponic_absorption,
      if_pos (show 20 ≤ (defaultInputs d c).droplet_size ∧
        (defaultInputs d c).droplet_size ≤ 50 from ⟨hd1, hd2⟩)]
    rfl

/-- C2 counterexample: at the end-to-end scenario
`droplet_size=35, nutrient_concentration=500` with all remaining
parameters at their defaults, the film formation factor reported in the
result is NOT `1.0 - 0.3 * (1/6)` (the claim's step-7 value): the film
branch requires `droplet_size > 40`, so the factor stays `1.0`. -/
theorem c2_film_factor_counterexample :
    (simulate_aeroponic_absorption (defaultInputs 35 500)).map
        (fun r => r.parameters.film_formation_factor) ≠ some (1.0 - 0.3 * (1 / 6)) := by
  norm_num [simulate_aeroponic_absorption, defaultInputs, film_formation_factor,
    film_saturation_time]

/-- C2 (amended): for the end-to-end scenario `compute(droplet_size=35,
nutrient_concentration=500, root_diameter=0.5, airflow_velocity=0.1,
temperature=25, exposure_time=60, root_density=1000)`, `bounce_factor`
equals 1.0 and `concentration_factor` equals 1.0; the film-formation
correction does not engage (droplet_size = 35 is not above 40), so
`film_formation_factor` equals 1.0 — even though
`film_saturation_time` would be 45 and `exposure_time = 60 > 45`. -/
theorem c2_scenario_factors :
    bounce_factor (defaultInputs 35 500) = 1.0 ∧
    (simulate_aeroponic_absorption (defaultInputs 35 500)).map
        (fun r => (r.parameters.concentration_factor, r.parameters.film_formation_factor))
      = some (1.0, 1.0) ∧
    film_saturation_time (defaultInputs 35 500) = 45 ∧
    (45 : ℚ) < (defaultInputs 35 500).exposure_time := by
  refine ⟨by norm_num [bounce_factor, defaultInputs],
    by norm_num [simulate_aeroponic_absorption, defaultInputs, film_formation_factor,
      film_saturation_time, concentration_factor],
    by norm_num [film_saturation_time, defaultInputs],
    by norm_num [defaultInputs]⟩

/-- C5: the impaction efficiency of the result is a function of the
Stokes number alone; it is 0 for every input driving
`stokes_number ≤ 0.1`; above that threshold it equals
`stokes_number² / (stokes_number² + 0.25)`, which is strictly
increasing in the Stokes number and approaches 1 from below as the
Stokes number tends to infinity. -/
theorem c5_impaction_monotone (i : Inputs)
    (hv : 20 ≤ i.droplet_size ∧ i.droplet_size ≤ 50) :
    ((simulate_aeroponic_absorption i).map (fun r => r.parameters.impaction_efficiency)
        = some (impaction_of_stokes (stokes_number i))) ∧
    (∀ s : ℚ, s ≤ 0.1 → impaction_of_stokes s = 0) ∧
    (∀ s : ℚ, 0.1 < s → impaction_of_stokes s = s ^ 2 / (s ^ 2 + 0.25)) ∧
    (∀ s t : ℚ, 0.1 < s → s < t → impaction_of_stokes s < impaction_of_stokes t) ∧
    (∀ s : ℚ, impaction_of_stokes s < 1) ∧
    (∀ ε : ℚ, 0 < ε → ∃ S : ℚ, ∀ s : ℚ, S < s → 1 - ε < impaction_of_stokes s) := by
  refine ⟨?_, ?_, ?_, impaction_of_stokes_strictMono, impaction_of_stokes_lt_one,
    impaction_of_stokes_approaches_one⟩
  · rw [simulate_aeroponic_absorption, if_pos hv, Option.map_some']
    rfl
  · intro s hs
    rw [impaction_of_stokes, if_neg (not_lt.mpr hs)]
  · intro s hs
    rw [impaction_of_stokes, if_pos hs]

/-- C5 witness: the impaction characterisation at the scenario input. -/
theorem c5_impaction_monotone_witness :
    (20 ≤ (defaultInputs 35 500).droplet_size ∧
      (defaultInputs 35 500).droplet_size ≤ 50) ∧
    ((simulate_aeroponic_absorption (defaultInputs 35 500)).map
        (fun r => r.parameters.impaction_efficiency)
      = some (impaction_of_stokes (stokes_number (defaultInputs 35 500)))) :=
  ⟨by norm_num [defaultInputs],
    (c5_impaction_monotone _ (by norm_num [defaultInputs])).1⟩

/-- C7: for every input (whenever a result is produced at all), the
`total_nutrients_absorbed` field of the result equals exactly
`absorption_rate * nutrient_concentration / 1000`, where
`absorption_rate` is the result's own field. -/
theorem c7_nutrients_scaling (i : Inputs) :
    (simulate_aeroponic_absorption i).map (fun r => r.total_nutrients_absorbed) =
      (simulate_aeroponic_absorption i).map
        (fun r => r.absorption_rate * i.nutrient_concentration / 1000) := by
  unfold simulate_aeroponic_absorption
  split <;> rfl

/-- C8: `compute` is deterministic — two invocations with identical
arguments produce exactly equal output records: the whole records are
equal, and hence so is each field, including the nested `parameters`
mapping. -/
theorem c8_deterministic (i j : Inputs) (h : i = j) :
    simulate_aeroponic_absorption i = simulate_aeroponic_absorption j ∧
    (simulate_aeroponic_absorption i).map (fun r => r.absorption_rate) =
      (simulate_aeroponic_absorption j).map (fun r => r.absorption_rate) ∧
    (simulate_aeroponic_absorption i).map (fun r => r.efficiency) =
      (simulate_aeroponic_absorption j).map (fun r => r.efficiency) ∧
    (simulate_aeroponic_absorption i).map (fun r => r.total_nutrients_absorbed) =
      (simulate_aeroponic_absorption j).map (fun r => r.total_nutrients_absorbed) ∧
    (simulate_aeroponic_absorption i).map (fun r => r.parameters) =
      (simulate_aeroponic_absorption j).map (fun r => r.parameters) := by
  subst h
  exact ⟨rfl, rfl, rfl, rfl, rfl⟩

/-- C3: for every call whose `droplet_size` passes validation
(`droplet_size` in `[20, 50]`), each of the three correction factors
`bounce_factor`, `concentration_factor` and `film_formation_factor`
lies in the half-open interval `(0, 1]`, with no constraint on the
other (unchecked) parameters such as `exposure_time` or
`nutrient_concentration`. -/
theorem c3_correction_factors_unit (i : Inputs)
    (hv : 20 ≤ i.droplet_size ∧ i.droplet_size ≤ 50) :
    (0 < bounce_factor i ∧ bounce_factor i ≤ 1) ∧
    (0 < concentration_factor i ∧ concentration_factor i ≤ 1) ∧
    (0 < film_formation_factor i ∧ film_formation_factor i ≤ 1) := by
  obtain ⟨h20, h50⟩ := hv
  refine ⟨?_, ?_, ?_⟩
  · rw [bounce_factor]
    split
    · rename_i h
      constructor <;> linarith
    · norm_num
  · rw [concentration_factor]
    split <;> norm_num
  · rw [film_formation_factor]
    split
    · rename_i h
      split
      · rename_i hfs
        have hfs30 : (30 : ℚ) ≤ film_saturation_time i := by
          rw [film_saturation_time]
          linarith
        have he : (0 : ℚ) < i.exposure_time := by linarith
        have hx0 : 0 ≤ (i.exposure_time - film_saturation_time i) / i.exposure_time :=
          div_nonneg (by linarith) he.le
        have hx1 : (i.exposure_time - film_saturation_time i) / i.exposure_time < 1 := by
          rw [div_lt_one he]
          linarith
        constructor <;> linarith
      · norm_num
    · norm_num

/-- C3 witness: the correction-factor bounds at `droplet_size = 25`,
`nutrient_concentration = 500` and the default remaining parameters. -/
theorem c3_correction_factors_unit_witness :
    (20 ≤ (defaultInputs 25 500).droplet_size ∧
      (defaultInputs 25 500).droplet_size ≤ 50) ∧
    ((0 < bounce_factor (defaultInputs 25 500) ∧
        bounce_factor (defaultInputs 25 500) ≤ 1) ∧
      (0 < concentration_factor (defaultInputs 25 500) ∧
        concentration_factor (defaultInputs 25 500) ≤ 1) ∧
      (0 < film_formation_factor (defaultInputs 25 500) ∧
        film_formation_factor (defaultInputs 25 500) ≤ 1)) :=
  ⟨by norm_num [defaultInputs],
    c3_correction_factors_unit _ (by norm_num [defaultInputs])⟩

/-- C4: for every valid input, the `film_formation_factor` returned in
the result's `parameters` equals exactly 1.0 whenever
`droplet_size ≤ 40` or `exposure_time ≤ 30`, regardless of the values
of all other parameters. -/
theorem c4_film_factor_one (i : Inputs)
    (hv : 20 ≤ i.droplet_size ∧ i.droplet_size ≤ 50)
    (h : i.droplet_size ≤ 40 ∨ i.exposure_time ≤ 30) :
    (simulate_aeroponic_absorption i).map (fun r => r.parameters.film_formation_factor)
      = some 1 := by
  have hfilm : film_formation_factor i = 1 := by
    rw [film_formation_factor, if_neg]
    · norm_num
    · rintro ⟨h40, h30⟩
      rcases h with h | h
      · exact absurd h40 (not_lt.mpr h)
      · exact absurd h30 (not_lt.mpr h)
  rw [simulate_aeroponic_absorption, if_pos hv, Option.map_some', hfilm]

/-- C4 witness: the film factor is 1 at the scenario input
(`droplet_size = 35 ≤ 40`). -/
theorem c4_film_factor_one_witness :
    (20 ≤ (defaultInputs 35 500).droplet_size ∧
      (defaultInputs 35 500).droplet_size ≤ 50) ∧
    ((defaultInputs 35 500).droplet_size ≤ 40 ∨
      (defaultInputs 35 500).exposure_time ≤ 30) ∧
    (simulate_aeroponic_absorption (defaultInputs 35 500)).map
        (fun r => r.parameters.film_formation_factor) = some 1 :=
  ⟨by norm_num [defaultInputs], by norm_num [defaultInputs],
    c4_film_factor_one _ (by norm_num [defaultInputs]) (by norm_num [defaultInputs])⟩

/-- C6: for every valid input, the `concentration_factor` returned in
the result's `parameters` is exactly 0.9 when
`nutrient_concentration > 1000` and exactly 1.0 otherwise; in
particular it is 1.0 at `nutrient_concentration = 1000` and 0.9
at 1001. -/
theorem c6_concentration_factor_threshold (i : Inputs)
    (hv : 20 ≤ i.droplet_size ∧ i.droplet_size ≤ 50) :
    ((simulate_aeroponic_absorption i).map (fun r => r.parameters.concentration_factor)
        = some (if 1000 < i.nutrient_concentration then 0.9 else 1.0)) ∧
    (simulate_aeroponic_absorption (defaultInputs 35 1000)).map
        (fun r => r.parameters.concentration_factor) = some 1.0 ∧
    (simulate_aeroponic_absorption (defaultInputs 35 1001)).map
        (fun r => r.parameters.concentration_factor) = some 0.9 := by
  refine ⟨?_, ?_, ?_⟩
  · rw [simulate_aeroponic_absorption, if_pos hv, Option.map_some', concentration_factor]
  · norm_num [simulate_aeroponic_absorption, defaultInputs, concentration_factor]
  · norm_num [simulate_aeroponic_absorption, defaultInputs, concentration_factor]

/-- C6 witness: the concentration-factor characterisation at the
scenario input. -/
theorem c6_concentration_factor_threshold_witness :
    (20 ≤ (defaultInputs 35 500).droplet_size ∧
      (defaultInputs 35 500).droplet_size ≤ 50) ∧
    ((simulate_aeroponic_absorption (defaultInputs 35 500)).map
        (fun r => r.parameters.concentration_factor)
      = some (if 1000 < (defaultInputs 35 500).nutrient_concentration then 0.9 else 1.0)) :=
  ⟨by norm_num [defaultInputs],
    (c6_concentration_factor_threshold _ (by norm_num [defaultInputs])).1⟩

/-- C8 witness: the determinism theorem applied at the concrete
scenario input. -/
theorem c8_deterministic_witness :
    simulate_aeroponic_absorption (defaultInputs 35 500) =
      simulate_aeroponic_absorption (defaultInputs 35 500) :=
  (c8_deterministic (defaultInputs 35 500) (defaultInputs 35 500) rfl).1

/-- C9: the `absorption_rate` and `efficiency` outputs depend on
`nutrient_concentration` only through the 1000-ppm threshold: for any
two concentrations both `≤ 1000`, or both `> 1000`, with all other
parameters held equal, the computation returns identical
`absorption_rate` and `efficiency` values. -/
theorem c9_concentration_threshold_dependence (i : Inputs) (c1 c2 : ℚ)
    (h : (c1 ≤ 1000 ∧ c2 ≤ 1000) ∨ (1000 < c1 ∧ 1000 < c2)) :
    (simulate_aeroponic_absorption (withConcentration i c1)).map
        (fun r => (r.absorption_rate, r.efficiency)) =
      (simulate_aeroponic_absorption (withConcentration i c2)).map
        (fun r => (r.absorption_rate, r.efficiency)) := by
  have hcf : concentration_factor (withConcentration i c1)
      = concentration_factor (withConcentration i c2) := by
    rw [concentration_factor, concentration_factor]
    simp only [withConcentration]
    rcases h with ⟨h1, h2⟩ | ⟨h1, h2⟩
    · rw [if_neg (not_lt.mpr h1), if_neg (not_lt.mpr h2)]
    · rw [if_pos h1, if_pos h2]
  have heff : absorption_efficiency (withConcentration i c1)
      = absorption_efficiency (withConcentration i c2) := by
    rw [absorption_efficiency, absorption_efficiency, hcf,
      show single_fiber_efficiency (withConcentration i c1)
          = single_fiber_efficiency (withConcentration i c2) from rfl,
      show film_formation_factor (withConcentration i c1)
          = film_formation_factor (withConcentration i c2) from rfl]
  have hrate : absorption_rate (withConcentration i c1)
      = absorption_rate (withConcentration i c2) := by
    rw [absorption_rate, absorption_rate, heff,
      show water_flow_rate (withConcentration i c1)
          = water_flow_rate (withConcentration i c2) from rfl,
      show root_surface_area (withConcentration i c1)
          = root_surface_area (withConcentration i c2) from rfl]
  rw [simulate_aeroponic_absorption, simulate_aeroponic_absorption]
  by_cases hv : 20 ≤ i.droplet_size ∧ i.droplet_size ≤ 50
  · rw [if_pos (show 20 ≤ (withConcentration i c1).droplet_size ∧
          (withConcentration i c1).droplet_size ≤ 50 from hv),
      if_pos (show 20 ≤ (withConcentration i c2).droplet_size ∧
          (withConcentration i c2).droplet_size ≤ 50 from hv)]
    simp only [Option.map_some']
    rw [hrate, heff]
  · rw [if_neg (show ¬ (20 ≤ (withConcentration i c1).droplet_size ∧
          (withConcentration i c1).droplet_size ≤ 50) from hv),
      if_neg (show ¬ (20 ≤ (withConcentration i c2).droplet_size ∧
          (withConcentration i c2).droplet_size ≤ 50) from hv)]

/-- C9 witness: concentrations 500 and 800 (both below the threshold)
give the same rate and efficiency at the scenario input. -/
theorem c9_concentration_threshold_dependence_witness :
    (((500 : ℚ) ≤ 1000 ∧ (800 : ℚ) ≤ 1000) ∨
      ((1000 : ℚ) < 500 ∧ (1000 : ℚ) < 800)) ∧
    (simulate_aeroponic_absorption (withConcentration (defaultInputs 35 500) 500)).map
        (fun r => (r.absorption_rate, r.efficiency)) =
      (simulate_aeroponic_absorption (withConcentration (defaultInputs 35 500) 800)).map
        (fun r => (r.absorption_rate, r.efficiency)) :=
  ⟨Or.inl ⟨by norm_num, by norm_num⟩,
    c9_concentration_threshold_dependence _ _ _ (Or.inl ⟨by norm_num, by norm_num⟩)⟩

/-- C10: for every input that passes the droplet-size validation,
regardless of the other (unchecked, possibly zero or negative)
parameters, the `impaction_efficiency` reported in the result's
`parameters` lies in `[0, 1)`: it is 0 when `stokes_number ≤ 0.1` and
otherwise `stokes_number² / (stokes_number² + 0.25)`, which is strictly
below 1. -/
theorem c10_impaction_bounds (i : Inputs)
    (hv : 20 ≤ i.droplet_size ∧ i.droplet_size ≤ 50) :
    ((simulate_aeroponic_absorption i).map (fun r => r.parameters.impaction_efficiency)
        = some (impaction_of_stokes (stokes_number i))) ∧
    (stokes_number i ≤ 0.1 → impaction_of_stokes (stokes_number i) = 0) ∧
    (0.1 < stokes_number i → impaction_of_stokes (stokes_number i)
        = stokes_number i ^ 2 / (stokes_number i ^ 2 + 0.25)) ∧
    0 ≤ impaction_of_stokes (stokes_number i) ∧
    impaction_of_stokes (stokes_number i) < 1 := by
  refine ⟨?_, ?_, ?_, impaction_of_stokes_nonneg _, impaction_of_stokes_lt_one _⟩
  · rw [simulate_aeroponic_absorption, if_pos hv, Option.map_some']
    rfl
  · intro hs
    rw [impaction_of_stokes, if_neg (not_lt.mpr hs)]
  · intro hs
    rw [impaction_of_stokes, if_pos hs]

/-- C10 witness: the impaction bounds at an input with a zero airflow
velocity (one of the unchecked degenerate parameters). -/
theorem c10_impaction_bounds_witness :
    (20 ≤ (Inputs.mk 35 500 0.5 0 25 60 1000).droplet_size ∧
      (Inputs.mk 35 500 0.5 0 25 60 1000).droplet_size ≤ 50) ∧
    (0 ≤ impaction_of_stokes (stokes_number (Inputs.mk 35 500 0.5 0 25 60 1000)) ∧
      impaction_of_stokes (stokes_number (Inputs.mk 35 500 0.5 0 25 60 1000)) < 1) :=
  ⟨by norm_num,
    ⟨(c10_impaction_bounds _ (by norm_num)).2.2.2.1,
      (c10_impaction_bounds _ (by norm_num)).2.2.2.2⟩⟩

end Aeroponic
